import Mathlib

/-!
Verification of the BudgetManagerPro authentication and access-control core.

Shallow embedding of the Python backend (`src/backend/app`):
* `app/core/security.py` — `SecurityManager` (password policy, JWT issue and
  verify), `RateLimiter`;
* `app/core/config.py` — `Settings` defaults;
* `app/services/user_service.py` — `UserService` (password reset lifecycle);
* `app/services/account_service.py` — `AccountService` (owner-filtered CRUD);
* `app/api/api_v1/endpoints/auth.py` — login and reset-password handlers;
* `app/api/v1/endpoints/accounts.py` — the mounted per-account handlers.

Python exceptions (`HTTPException`, `ValueError`) are modelled with `Except`;
the SQLAlchemy session is modelled as an explicit list of records, with
`query(...).filter(...).first()` becoming `List.find?` and in-place mutation
plus commit becoming a `List.map` that rewrites the matched record.  The
bcrypt hash and the JWT signature are opaque: hashing is a function parameter
and a signed token is a record remembering the key and algorithm it was
signed with.
-/

deriving instance DecidableEq for Except

/-- Python exception outcomes that the embedded handlers can produce:
`HTTPException(status_code, detail)` from FastAPI, and `ValueError` raised by
`datetime.replace` on an out-of-range field. -/
inductive PyError where
  | http (status : Nat) (detail : String)
  | valueError (msg : String)
deriving DecidableEq, Repr

/-- A UTC wall-clock instant, mirroring the fields of Python `datetime` that
the source reads or writes. -/
structure Datetime where
  year : Nat
  month : Nat
  day : Nat
  hour : Nat
  minute : Nat
  second : Nat
  microsecond : Nat
deriving DecidableEq, Repr

/-- `datetime.replace(hour=h)`: Python raises `ValueError` unless
`0 <= hour <= 23`; otherwise only the hour field changes. -/
def Datetime.replaceHour (d : Datetime) (h : Nat) : Except PyError Datetime :=
  if h ≤ 23 then .ok { d with hour := h }
  else .error (.valueError "hour must be in 0..23")

/-- Field-lexicographic comparison of two instants, the order Python uses to
compare `datetime` values. -/
def Datetime.lt (a b : Datetime) : Bool :=
  if a.year ≠ b.year then a.year < b.year
  else if a.month ≠ b.month then a.month < b.month
  else if a.day ≠ b.day then a.day < b.day
  else if a.hour ≠ b.hour then a.hour < b.hour
  else if a.minute ≠ b.minute then a.minute < b.minute
  else if a.second ≠ b.second then a.second < b.second
  else a.microsecond < b.microsecond

/-- The security-relevant defaults of `Settings` (`app/core/config.py`). -/
structure Settings where
  SECRET_KEY : String
  JWT_ALGORITHM : String
  JWT_EXPIRE_MINUTES : Nat
  JWT_REFRESH_EXPIRE_DAYS : Nat
  RATE_LIMIT_PER_MINUTE : Nat
deriving Repr

/-- `settings = Settings()` with the defaults from `app/core/config.py`. -/
def settings : Settings :=
  { SECRET_KEY := "your-super-secret-key-change-this-in-production"
    JWT_ALGORITHM := "HS256"
    JWT_EXPIRE_MINUTES := 30
    JWT_REFRESH_EXPIRE_DAYS := 7
    RATE_LIMIT_PER_MINUTE := 60 }

/-- The fixed special-character set of
`SecurityManager.validate_password_strength`. -/
def specialChars : List Char :=
  "!@#$%^&*()_+-=[]\x7b\x7d|;:,.<>?".toList

/-- `SecurityManager.validate_password_strength` (`app/core/security.py`,
lines 111-133): five checks in order, first failure returns `(False, msg)`,
all passing returns `(True, "Password is strong")`. -/
def SecurityManager.validate_password_strength (password : String) :
    Bool × String :=
  if password.length < 8 then
    (false, "Password must be at least 8 characters long")
  else if !(password.toList.any (fun c => c.isUpper)) then
    (false, "Password must contain at least one uppercase letter")
  else if !(password.toList.any (fun c => c.isLower)) then
    (false, "Password must contain at least one lowercase letter")
  else if !(password.toList.any (fun c => c.isDigit)) then
    (false, "Password must contain at least one digit")
  else if !(password.toList.any (fun c => specialChars.contains c)) then
    (false, "Password must contain at least one special character")
  else
    (true, "Password is strong")

/-- The password policy as the spec words it (section 4.2): an ordered list
of (rule, failure message) pairs.  Written from the spec, independently of
the source, to be compared with `SecurityManager.validate_password_strength`. -/
def specPasswordRules : List ((String → Bool) × String) :=
  [ (fun p => decide (p.length ≥ 8),
     "Password must be at least 8 characters long"),
    (fun p => p.toList.any (fun c => c.isUpper),
     "Password must contain at least one uppercase letter"),
    (fun p => p.toList.any (fun c => c.isLower),
     "Password must contain at least one lowercase letter"),
    (fun p => p.toList.any (fun c => c.isDigit),
     "Password must contain at least one digit"),
    (fun p => p.toList.any (fun c => specialChars.contains c),
     "Password must contain at least one special character") ]

/-- Spec-side validator: find the first violated rule; valid iff none is
violated, and the reason names the first violated rule. -/
def specPasswordPolicy (password : String) : Bool × String :=
  match specPasswordRules.find? (fun r => !(r.1 password)) with
  | some r => (false, r.2)
  | none => (true, "Password is strong")

/-- C6: for every plaintext, `validate_password_strength` returns exactly the
verdict of the five ordered rules with the first failure winning — it agrees
with the rule-list formalisation of the spec on every input, so the result is
valid iff all five rules pass and the returned reason names the first
violated rule. -/
theorem c6_password_policy_first_failure (password : String) :
    SecurityManager.validate_password_strength password =
      specPasswordPolicy password := by
  unfold SecurityManager.validate_password_strength specPasswordPolicy
      specPasswordRules
  simp only [List.find?]
  by_cases h1 : password.length < 8
  · have h1b : ¬ (8 ≤ password.length) := by omega
    simp [h1, h1b]
  · have h1b : 8 ≤ password.length := by omega
    cases h2 : password.toList.any (fun c => c.isUpper)
    <;> cases h3 : password.toList.any (fun c => c.isLower)
    <;> cases h4 : password.toList.any (fun c => c.isDigit)
    <;> cases h5 : password.toList.any (fun c => specialChars.contains c)
    <;> simp [h1, h1b, h2, h3, h4, h5]

/-- The claims body a JWT carries in this code base: expiry instant (epoch
seconds), subject, and the `sub`-may-be-absent possibility that
`payload.get("sub")` allows for. -/
structure TokenPayload where
  exp : Nat
  sub : Option String
  type : String
deriving DecidableEq, Repr

/-- A signed JWT, modelled as the payload together with the key and algorithm
it was signed with; `jwt.encode` produces it and `jwt.decode` accepts it only
under the same key and algorithm. -/
structure Jwt where
  payload : TokenPayload
  key : String
  alg : String
deriving DecidableEq, Repr

/-- `jose.jwt.encode(claims, key, algorithm)`. -/
def jwtEncode (claims : TokenPayload) (key : String) (alg : String) : Jwt :=
  { payload := claims, key := key, alg := alg }

/-- `jose.jwt.decode(token, key, algorithms)` at instant `now`: raises
`JWTError` (modelled as `none`) when the signature does not verify under
`key`/`alg` or when the `exp` claim lies in the past; otherwise returns the
payload. -/
def jwtDecode (token : Jwt) (key : String) (alg : String) (now : Nat) :
    Option TokenPayload :=
  if token.key ≠ key ∨ token.alg ≠ alg then none
  else if token.payload.exp < now then none
  else some token.payload

/-- `SecurityManager.create_access_token` (`app/core/security.py`, lines
42-66): expiry is `now + expires_delta` when a delta is passed, else
`now + JWT_EXPIRE_MINUTES` minutes; payload carries the subject as a string
and the type tag `"access"`.  `now` and `expires_delta` are in epoch
seconds. -/
def SecurityManager.create_access_token (subject : Nat) (now : Nat)
    (expires_delta : Option Nat) : Jwt :=
  let expire :=
    match expires_delta with
    | some d => now + d
    | none => now + settings.JWT_EXPIRE_MINUTES * 60
  jwtEncode { exp := expire, sub := some (toString subject), type := "access" }
    settings.SECRET_KEY settings.JWT_ALGORITHM

/-- `SecurityManager.create_refresh_token` (`app/core/security.py`, lines
68-86): expiry is `now + JWT_REFRESH_EXPIRE_DAYS` days, type tag
`"refresh"`. -/
def SecurityManager.create_refresh_token (subject : Nat) (now : Nat) : Jwt :=
  jwtEncode
    { exp := now + settings.JWT_REFRESH_EXPIRE_DAYS * 24 * 60 * 60
      sub := some (toString subject)
      type := "refresh" }
    settings.SECRET_KEY settings.JWT_ALGORITHM

/-- `SecurityManager.verify_token` (`app/core/security.py`, lines 88-109):
decode under the process secret; on `JWTError`, on a type-tag mismatch, or on
a missing subject return `None`, else return the subject. -/
def SecurityManager.verify_token (token : Jwt) (token_type : String)
    (now : Nat) : Option String :=
  match jwtDecode token settings.SECRET_KEY settings.JWT_ALGORITHM now with
  | none => none
  | some payload =>
    if payload.type ≠ token_type then none
    else
      match payload.sub with
      | none => none
      | some subject => some subject

/-- C5: a freshly issued, unexpired access token for subject `s` verifies as
`"access"` to `some (toString s)`, fails verification as `"refresh"`, and
symmetrically a refresh token is never accepted where an access token is
required (for the refresh token no freshness hypothesis is even needed — the
type tag alone rejects it). -/
theorem c5_token_type_discipline (s : Nat) (now vnow : Nat)
    (expires_delta : Option Nat)
    (hfresh : vnow ≤ (SecurityManager.create_access_token s now
        expires_delta).payload.exp) :
    SecurityManager.verify_token
        (SecurityManager.create_access_token s now expires_delta) "access" vnow
      = some (toString s) ∧
    SecurityManager.verify_token
        (SecurityManager.create_access_token s now expires_delta) "refresh" vnow
      = none ∧
    SecurityManager.verify_token
        (SecurityManager.create_refresh_token s now) "access" vnow = none := by
  refine ⟨?_, ?_, ?_⟩
  · cases expires_delta with
    | none =>
      have h : ¬ (now + settings.JWT_EXPIRE_MINUTES * 60 < vnow) := by
        simp only [SecurityManager.create_access_token, jwtEncode] at hfresh
        omega
      simp [SecurityManager.verify_token, SecurityManager.create_access_token,
        jwtDecode, jwtEncode, h]
    | some d =>
      have h : ¬ (now + d < vnow) := by
        simp only [SecurityManager.create_access_token, jwtEncode] at hfresh
        omega
      simp [SecurityManager.verify_token, SecurityManager.create_access_token,
        jwtDecode, jwtEncode, h]
  · cases expires_delta with
    | none =>
      by_cases h : now + settings.JWT_EXPIRE_MINUTES * 60 < vnow <;>
        simp [SecurityManager.verify_token, SecurityManager.create_access_token,
          jwtDecode, jwtEncode, h]
    | some d =>
      by_cases h : now + d < vnow <;>
        simp [SecurityManager.verify_token, SecurityManager.create_access_token,
          jwtDecode, jwtEncode, h]
  · by_cases h : now + settings.JWT_REFRESH_EXPIRE_DAYS * 24 * 60 * 60 < vnow <;>
      simp [SecurityManager.verify_token, SecurityManager.create_refresh_token,
        jwtDecode, jwtEncode, h]

/-- Witness for C5 at `s = 7`, issued at `now = 1000` with the default TTL,
verified at `vnow = 1500`. -/
theorem c5_token_type_discipline_witness :
    SecurityManager.verify_token
        (SecurityManager.create_access_token 7 1000 none) "access" 1500
      = some "7" ∧
    SecurityManager.verify_token
        (SecurityManager.create_access_token 7 1000 none) "refresh" 1500
      = none ∧
    SecurityManager.verify_token
        (SecurityManager.create_refresh_token 7 1000) "access" 1500 = none :=
  c5_token_type_discipline 7 1000 1500 none (by decide)

/-- `RateLimiter` (`app/core/security.py`, lines 186-221): per-identifier
in-memory timestamp lists.  The Python dict `self._requests` is modelled as a
total map defaulting to `[]`, which matches the source's
`if identifier in self._requests ... else: self._requests[identifier] = []`
normalisation.  Timestamps are integers (epoch seconds). -/
structure RateLimiter where
  requests : String → List Int

/-- `RateLimiter.is_allowed` (`app/core/security.py`, lines 192-217): prune
the identifier's entries to those strictly newer than `now - window_seconds`,
deny if the remaining count reaches `max_requests` (writing back only the
pruned list), otherwise admit and append `now`. -/
def RateLimiter.is_allowed (st : RateLimiter) (identifier : String)
    (max_requests : Nat) (window_seconds : Int) (now : Int) :
    Bool × RateLimiter :=
  let window_start := now - window_seconds
  let pruned := (st.requests identifier).filter (fun t => decide (window_start < t))
  if pruned.length ≥ max_requests then
    (false,
      { requests := fun k => if k = identifier then pruned else st.requests k })
  else
    (true,
      { requests := fun k =>
          if k = identifier then pruned ++ [now] else st.requests k })

/-- A sequence of calls to `is_allowed` for one identifier at the given
times, returning the admit/deny verdicts and the final limiter state. -/
def RateLimiter.runCalls (st : RateLimiter) (identifier : String)
    (max_requests : Nat) (window_seconds : Int) :
    List Int → List Bool × RateLimiter
  | [] => ([], st)
  | t :: ts =>
    let r := st.is_allowed identifier max_requests window_seconds t
    let rest := r.2.runCalls identifier max_requests window_seconds ts
    (r.1 :: rest.1, rest.2)

/-- Counting lemma for `runCalls`: with calls in nondecreasing order, all
within one `w`-window of each other, and every already-stored entry still
inside the window of every upcoming call, the number of admitted calls is
exactly what fills the stored list up to `max_requests`. -/
theorem RateLimiter.runCalls_count (identifier : String) (max_requests : Nat)
    (w : Int) (times : List Int) (st : RateLimiter)
    (hp : times.Pairwise (fun a b => a ≤ b ∧ b - a < w))
    (hl : ∀ x ∈ st.requests identifier, ∀ t ∈ times, t - w < x) :
    ((st.runCalls identifier max_requests w times).1.count true)
      = min ((st.requests identifier).length + times.length) max_requests
          - min (st.requests identifier).length max_requests := by
  induction times generalizing st with
  | nil => simp [RateLimiter.runCalls]
  | cons t ts ih =>
    have hhead := (List.pairwise_cons.mp hp).1
    have htail := (List.pairwise_cons.mp hp).2
    have hkeep : (st.requests identifier).filter (fun x => decide (t - w < x))
        = st.requests identifier := by
      rw [List.filter_eq_self]
      intro x hx
      exact decide_eq_true (hl x hx t (List.mem_cons_self t ts))
    by_cases hfull : (st.requests identifier).length ≥ max_requests
    · have hres : st.is_allowed identifier max_requests w t
          = (false, { requests := fun k =>
              if k = identifier then st.requests identifier
              else st.requests k }) := by
        simp [RateLimiter.is_allowed, hkeep, hfull]
      have hrec := ih
        { requests := fun k =>
            if k = identifier then st.requests identifier else st.requests k }
        htail
        (fun x hx t' ht' => by
          have hx2 : x ∈ st.requests identifier := by simpa using hx
          exact hl x hx2 t' (List.mem_cons_of_mem _ ht'))
      simp at hrec
      simp [RateLimiter.runCalls, hres, hrec]
      omega
    · have hres : st.is_allowed identifier max_requests w t
          = (true, { requests := fun k =>
              if k = identifier then st.requests identifier ++ [t]
              else st.requests k }) := by
        simp [RateLimiter.is_allowed, hkeep, hfull]
      have hrec := ih
        { requests := fun k =>
            if k = identifier then st.requests identifier ++ [t]
            else st.requests k }
        htail
        (fun x hx t' ht' => by
          have hx2 : x ∈ st.requests identifier ∨ x = t := by simpa using hx
          rcases hx2 with hx2 | hx2
          · exact hl x hx2 t' (List.mem_cons_of_mem _ ht')
          · subst hx2
            have h1 := hhead t' ht'
            omega)
      simp at hrec
      simp [RateLimiter.runCalls, hres, hrec]
      omega

/-- C7: `is_allowed` first prunes the identifier's recorded timestamps to
those strictly inside the trailing window, admits iff the remaining count is
strictly below `max_requests` (appending `now` exactly when admitting, and
appending nothing when denying), and consequently a run of calls lying
within one rolling window admits exactly `min n max_requests` of the `n`
calls — the first `max_requests` are admitted and the next is denied. -/
theorem c7_rate_limiter_sliding_window (identifier : String)
    (max_requests : Nat) (w : Int) (st : RateLimiter) (now : Int)
    (times : List Int)
    (hp : times.Pairwise (fun a b => a ≤ b ∧ b - a < w)) :
    ((st.is_allowed identifier max_requests w now).1
        = decide (((st.requests identifier).filter
            (fun x => decide (now - w < x))).length < max_requests)) ∧
    (((st.is_allowed identifier max_requests w now).2).requests identifier
        = (if ((st.requests identifier).filter
              (fun x => decide (now - w < x))).length < max_requests
           then (st.requests identifier).filter
              (fun x => decide (now - w < x)) ++ [now]
           else (st.requests identifier).filter
              (fun x => decide (now - w < x)))) ∧
    ((RateLimiter.mk (fun _ => [])).runCalls identifier max_requests w
        times).1.count true = min times.length max_requests := by
  refine ⟨?_, ?_, ?_⟩
  · unfold RateLimiter.is_allowed
    by_cases h : ((st.requests identifier).filter
        (fun x => decide (now - w < x))).length ≥ max_requests
    · simp only [if_pos h]
      simp [Nat.not_lt.mpr h]
    · simp only [if_neg h]
      simp [Nat.not_le.mp h]
  · unfold RateLimiter.is_allowed
    by_cases h : ((st.requests identifier).filter
        (fun x => decide (now - w < x))).length ≥ max_requests
    · simp only [if_pos h]
      simp [Nat.not_lt.mpr h]
    · simp only [if_neg h]
      simp [Nat.not_le.mp h]
  · have h := RateLimiter.runCalls_count identifier max_requests w times
      (RateLimiter.mk (fun _ => [])) hp (by intro x hx; simp at hx)
    simpa using h

/-- Witness for C7: identifier "ip", limit 2 in a 60-second window; a fresh
limiter admits a first call, and over four calls at times 0, 1, 2, 3 within
one window it admits exactly 2. -/
theorem c7_rate_limiter_sliding_window_witness :
    ((RateLimiter.mk (fun _ => [])).is_allowed "ip" 2 60 5).1 = true ∧
    ((RateLimiter.mk (fun _ => [])).runCalls "ip" 2 60 [0, 1, 2, 3]).1.count
        true = 2 := by
  have h := c7_rate_limiter_sliding_window "ip" 2 60
    (RateLimiter.mk (fun _ => [])) 5 [0, 1, 2, 3] (by decide)
  refine ⟨?_, ?_⟩
  · rw [h.1]
    decide
  · rw [h.2.2]
    decide

/-- The `User` record (`app/models/user.py`), restricted to the columns the
auth core reads or writes. -/
structure User where
  id : Nat
  email : String
  password_hash : String
  is_active : Bool
  is_superuser : Bool
  created_at : Datetime
  updated_at : Datetime
  last_login : Option Datetime
  password_reset_token : Option String
  password_reset_expires : Option Datetime
deriving DecidableEq, Repr

/-- `AccountType` (`app/models/account.py`). -/
inductive AccountType where
  | checking
  | savings
  | credit_card
  | mortgage
  | line_of_credit
deriving DecidableEq, Repr

/-- The `Account` record (`app/models/account.py`). -/
structure Account where
  id : Nat
  user_id : Nat
  name : String
  account_type : AccountType
  bank_name : Option String
  account_number : Option String
  description : Option String
  is_active : Bool
  created_at : Datetime
  updated_at : Datetime
deriving DecidableEq, Repr

/-- `UserService.get_user_by_id` (`app/services/user_service.py`, lines
45-47): `db.query(User).filter(User.id == user_id).first()`. -/
def UserService.get_user_by_id (db : List User) (user_id : Nat) :
    Option User :=
  db.find? (fun u => u.id == user_id)

/-- `UserService.get_user_by_email` (`app/services/user_service.py`, lines
49-51). -/
def UserService.get_user_by_email (db : List User) (email : String) :
    Option User :=
  db.find? (fun u => u.email == email)

/-- `UserService.set_password_reset_token` (`app/services/user_service.py`,
lines 93-111): look up the user (404 if absent), store the token, and set
the expiry with `datetime.utcnow().replace(hour=datetime.utcnow().hour + 1)`
— hour-of-day field arithmetic, which raises `ValueError` when the current
hour is 23.  Both `utcnow()` calls are modelled by the single instant
`now`. -/
def UserService.set_password_reset_token (db : List User) (user_id : Nat)
    (reset_token : String) (now : Datetime) : Except PyError (List User) :=
  match UserService.get_user_by_id db user_id with
  | none => .error (.http 404 "User not found")
  | some _ =>
    match now.replaceHour (now.hour + 1) with
    | .error e => .error e
    | .ok expires =>
      .ok (db.map (fun u =>
        if u.id == user_id then
          { u with
            password_reset_token := some reset_token
            password_reset_expires := some expires
            updated_at := now }
        else u))

/-- `UserService.reset_password` (`app/services/user_service.py`, lines
113-134): look up the user (404 if absent), replace the password hash, and
clear `password_reset_token` and `password_reset_expires` in the same
committed update.  `hash` stands for `SecurityManager.get_password_hash`
(bcrypt with internal random salt). -/
def UserService.reset_password (hash : String → String) (db : List User)
    (user_id : Nat) (new_password : String) (now : Datetime) :
    Except PyError (List User) :=
  match UserService.get_user_by_id db user_id with
  | none => .error (.http 404 "User not found")
  | some _ =>
    .ok (db.map (fun u =>
      if u.id == user_id then
        { u with
          password_hash := hash new_password
          password_reset_token := none
          password_reset_expires := none
          updated_at := now }
      else u))

/-- `reset_password` handler (`app/api/api_v1/endpoints/auth.py`, lines
255-286): find the user by `password_reset_token == reset_data.token` (400
"Invalid reset token" if none), validate the new password's strength (400
with the policy message on failure), then delegate to
`UserService.reset_password`.  The stored expiry is never consulted. -/
def resetPasswordEndpoint (hash : String → String) (db : List User)
    (token : String) (new_password : String) (now : Datetime) :
    Except PyError (List User) :=
  match db.find? (fun u => u.password_reset_token == some token) with
  | none => .error (.http 400 "Invalid reset token")
  | some user =>
    if !(SecurityManager.validate_password_strength new_password).1 then
      .error (.http 400 (SecurityManager.validate_password_strength
        new_password).2)
    else UserService.reset_password hash db user.id new_password now

/-- `update_last_login` applied inside `login`
(`app/services/user_service.py`, lines 136-151), with the successful path
assumed (the id was just read from the store). -/
def UserService.update_last_login (db : List User) (user_id : Nat)
    (now : Datetime) : List User :=
  db.map (fun u =>
    if u.id == user_id then
      { u with last_login := some now, updated_at := now }
    else u)

/-- The `Token` response schema (`app/schemas/auth.py`). -/
structure TokenResponse where
  access_token : Jwt
  refresh_token : Jwt
  token_type : String
  expires_in : Nat
deriving DecidableEq, Repr

/-- `login` handler (`app/api/api_v1/endpoints/auth.py`, lines 73-115):
one lookup by email; a missing user and a failing password check raise the
identical `401 "Incorrect email or password"`; an inactive user raises
`401 "User account is inactive"`; otherwise mint an access and a refresh
token and update `last_login`.  `verify` stands for
`SecurityManager.verify_password` and `nowSecs` is the epoch-seconds instant
used for token expiry. -/
def loginEndpoint (verify : String → String → Bool) (db : List User)
    (email : String) (password : String) (now : Datetime) (nowSecs : Nat) :
    Except PyError (TokenResponse × List User) :=
  match db.find? (fun u => u.email == email) with
  | none => .error (.http 401 "Incorrect email or password")
  | some user =>
    if !(verify password user.password_hash) then
      .error (.http 401 "Incorrect email or password")
    else if !user.is_active then
      .error (.http 401 "User account is inactive")
    else
      let access := SecurityManager.create_access_token user.id nowSecs
        (some (settings.JWT_EXPIRE_MINUTES * 60))
      let refresh := SecurityManager.create_refresh_token user.id nowSecs
      .ok ({ access_token := access
             refresh_token := refresh
             token_type := "bearer"
             expires_in := settings.JWT_EXPIRE_MINUTES * 60 },
           UserService.update_last_login db user.id now)

/-- `AccountService.get_account` (`app/services/account_service.py`, lines
60-65): `filter(Account.id == account_id, Account.user_id == user_id)` —
the ownership decision is part of the query, with no superuser branch. -/
def AccountService.get_account (db : List Account) (account_id : Nat)
    (user_id : Nat) : Option Account :=
  db.find? (fun a => a.id == account_id && a.user_id == user_id)

/-- `AccountUpdate` schema (`app/schemas/account.py`) as used by the mounted
endpoints: unset fields are `none` and are skipped by
`dict(exclude_unset=True)`. -/
structure AccountUpdate where
  name : Option String := none
  account_type : Option AccountType := none
  bank_name : Option String := none
  account_number : Option String := none
  description : Option String := none
  is_active : Option Bool := none
deriving DecidableEq, Repr

/-- The `setattr` loop of `AccountService.update_account`: apply exactly the
set fields. -/
def AccountUpdate.apply (upd : AccountUpdate) (a : Account) : Account :=
  { a with
    name := upd.name.getD a.name
    account_type := upd.account_type.getD a.account_type
    bank_name := match upd.bank_name with
      | some b => some b
      | none => a.bank_name
    account_number := match upd.account_number with
      | some n => some n
      | none => a.account_number
    description := match upd.description with
      | some d => some d
      | none => a.description
    is_active := upd.is_active.getD a.is_active }

/-- `AccountService.update_account` (`app/services/account_service.py`,
lines 123-159): owner-filtered lookup, `None` when it misses; duplicate
active-name check (400) when a non-empty, different name is supplied
(`if account_data.name and account_data.name != account.name`); otherwise
apply the set fields, stamp `updated_at`, and commit. -/
def AccountService.update_account (db : List Account) (account_id : Nat)
    (account_data : AccountUpdate) (user_id : Nat) (now : Datetime) :
    Except PyError (Option (Account × List Account)) :=
  match AccountService.get_account db account_id user_id with
  | none => .ok none
  | some account =>
    let dup : Bool :=
      match account_data.name with
      | some n =>
        if n ≠ "" ∧ n ≠ account.name then
          (db.find? (fun a => a.user_id == user_id && a.name == n &&
            a.is_active && a.id != account_id)).isSome
        else false
      | none => false
    if dup then
      .error (.http 400 "Account with this name already exists")
    else
      let updated : Account := { account_data.apply account with
        updated_at := now }
      .ok (some (updated,
        db.map (fun a => if a.id == account.id then updated else a)))

/-- `AccountService.delete_account` (`app/services/account_service.py`,
lines 161-176): soft delete; `False` when the owner-filtered lookup
misses. -/
def AccountService.delete_account (db : List Account) (account_id : Nat)
    (user_id : Nat) (now : Datetime) : Bool × List Account :=
  match AccountService.get_account db account_id user_id with
  | none => (false, db)
  | some account =>
    let updated := { account with is_active := false, updated_at := now }
    (true, db.map (fun a => if a.id == account.id then updated else a))

/-- `AccountService.hard_delete_account` (`app/services/account_service.py`,
lines 178-188): permanent delete; `False` when the owner-filtered lookup
misses. -/
def AccountService.hard_delete_account (db : List Account)
    (account_id : Nat) (user_id : Nat) : Bool × List Account :=
  match AccountService.get_account db account_id user_id with
  | none => (false, db)
  | some account =>
    (true, db.filter (fun a => !(a.id == account.id)))

/-- `get_account` handler (`app/api/v1/endpoints/accounts.py`, lines
100-116, the router mounted in `app/api/api_v1/api.py`): owner-filtered
service lookup; a miss — including a non-owner request — becomes
`404 "Account not found"`. -/
def getAccountEndpoint (db : List Account) (current_user : User)
    (account_id : Nat) : Except PyError Account :=
  match AccountService.get_account db account_id current_user.id with
  | none => .error (.http 404 "Account not found")
  | some account => .ok account

/-- `update_account` handler (`app/api/v1/endpoints/accounts.py`, lines
119-136). -/
def updateAccountEndpoint (db : List Account) (current_user : User)
    (account_id : Nat) (account_data : AccountUpdate) (now : Datetime) :
    Except PyError (Account × List Account) :=
  match AccountService.update_account db account_id account_data
      current_user.id now with
  | .error e => .error e
  | .ok none => .error (.http 404 "Account not found")
  | .ok (some r) => .ok r

/-- `delete_account` handler (`app/api/v1/endpoints/accounts.py`, lines
139-162): soft delete by default, hard delete when requested; a `False`
service result becomes `404 "Account not found"`. -/
def deleteAccountEndpoint (db : List Account) (current_user : User)
    (account_id : Nat) (hard_delete : Bool) (now : Datetime) :
    Except PyError (String × List Account) :=
  let r :=
    if hard_delete then AccountService.hard_delete_account db account_id
      current_user.id
    else AccountService.delete_account db account_id current_user.id now
  let message :=
    if hard_delete then "Account permanently deleted"
    else "Account deactivated successfully"
  if !r.1 then .error (.http 404 "Account not found")
  else .ok (message, r.2)

/-- `activate_account` handler (`app/api/v1/endpoints/accounts.py`, lines
165-182): `update_account` with `AccountUpdate(is_active=True)`; a `None`
service result becomes `404 "Account not found"`. -/
def activateAccountEndpoint (db : List Account) (current_user : User)
    (account_id : Nat) (now : Datetime) :
    Except PyError (String × List Account) :=
  match AccountService.update_account db account_id
      { is_active := some true } current_user.id now with
  | .error e => .error e
  | .ok none => .error (.http 404 "Account not found")
  | .ok (some r) => .ok ("Account activated successfully", r.2)

/-- `check_account_access` (`app/core/deps.py`, lines 149-173): a dependency
factory that exists in the source but is referenced by no mounted route; a
non-owner, non-superuser caller would receive `403 "Access denied to this
account"` from it. -/
def check_account_access (db : List Account) (current_user : User)
    (account_id : Nat) : Except PyError User :=
  let account := db.find? (fun a => a.id == account_id &&
    a.user_id == current_user.id)
  if account.isNone ∧ ¬ current_user.is_superuser then
    .error (.http 403 "Access denied to this account")
  else .ok current_user

/-- When every stored account with the requested id belongs to someone else,
the owner-filtered query of `AccountService.get_account` finds nothing. -/
theorem AccountService.get_account_eq_none (db : List Account)
    (account_id : Nat) (user_id : Nat)
    (hown : ∀ a ∈ db, a.id = account_id → a.user_id ≠ user_id) :
    AccountService.get_account db account_id user_id = none := by
  rw [AccountService.get_account, List.find?_eq_none]
  intro a ha
  simp only [Bool.and_eq_true, beq_iff_eq, not_and]
  intro h1 h2
  exact hown a ha h1 h2

/-- C1: for an authenticated non-superuser whose id differs from the owner of
every stored account carrying the requested id, each mounted per-account
handler (read, update, soft delete, hard delete, activate) answers exactly
`404 "Account not found"` — in particular never `403`.  The only
403-on-ownership code path, `check_account_access` in `app/core/deps.py`, is
referenced by no mounted route. -/
theorem c1_ownership_miss_is_notfound (db : List Account) (u : User)
    (account_id : Nat) (account_data : AccountUpdate) (now : Datetime)
    (_hsup : u.is_superuser = false)
    (hown : ∀ a ∈ db, a.id = account_id → a.user_id ≠ u.id) :
    getAccountEndpoint db u account_id
      = .error (.http 404 "Account not found") ∧
    updateAccountEndpoint db u account_id account_data now
      = .error (.http 404 "Account not found") ∧
    deleteAccountEndpoint db u account_id false now
      = .error (.http 404 "Account not found") ∧
    deleteAccountEndpoint db u account_id true now
      = .error (.http 404 "Account not found") ∧
    activateAccountEndpoint db u account_id now
      = .error (.http 404 "Account not found") := by
  have hfind := AccountService.get_account_eq_none db account_id u.id hown
  refine ⟨?_, ?_, ?_, ?_, ?_⟩ <;>
    simp [getAccountEndpoint, updateAccountEndpoint, deleteAccountEndpoint,
      activateAccountEndpoint, AccountService.update_account,
      AccountService.delete_account, AccountService.hard_delete_account, hfind]

/-- A reference instant used by the concrete witnesses. -/
def sampleTime : Datetime :=
  { year := 2025, month := 6, day := 15, hour := 12, minute := 0,
    second := 0, microsecond := 0 }

/-- A later reference instant. -/
def sampleTime2 : Datetime :=
  { year := 2025, month := 6, day := 15, hour := 12, minute := 30,
    second := 0, microsecond := 0 }

/-- An account with id 42 owned by user 7. -/
def sampleAccount : Account :=
  { id := 42, user_id := 7, name := "Chequing", account_type := .checking,
    bank_name := none, account_number := none, description := none,
    is_active := true, created_at := sampleTime, updated_at := sampleTime }

/-- An ordinary (non-superuser) identity with id 9. -/
def sampleUser9 : User :=
  { id := 9, email := "u9@x.com", password_hash := "h9", is_active := true,
    is_superuser := false, created_at := sampleTime,
    updated_at := sampleTime, last_login := none,
    password_reset_token := none, password_reset_expires := none }

/-- A superuser identity with id 9. -/
def sampleSuperuser : User :=
  { sampleUser9 with email := "root@x.com", is_superuser := true }

/-- Witness for C1: user 9 (non-super) targeting account 42 owned by user 7
receives 404 from every per-account handler. -/
theorem c1_ownership_miss_is_notfound_witness :
    getAccountEndpoint [sampleAccount] sampleUser9 42
      = .error (.http 404 "Account not found") ∧
    updateAccountEndpoint [sampleAccount] sampleUser9 42 {} sampleTime
      = .error (.http 404 "Account not found") ∧
    deleteAccountEndpoint [sampleAccount] sampleUser9 42 false sampleTime
      = .error (.http 404 "Account not found") ∧
    deleteAccountEndpoint [sampleAccount] sampleUser9 42 true sampleTime
      = .error (.http 404 "Account not found") ∧
    activateAccountEndpoint [sampleAccount] sampleUser9 42 sampleTime
      = .error (.http 404 "Account not found") :=
  c1_ownership_miss_is_notfound [sampleAccount] sampleUser9 42 {} sampleTime
    (by decide) (by decide)

/-- C2 counterexample: the claim says a superuser can read any resource, but
a superuser (id 9) reading account 42 owned by user 7 through the mounted
read handler receives `404 "Account not found"` — the owner filter of
`AccountService.get_account` has no superuser branch. -/
theorem c2_counterexample_superuser_gets_404 :
    sampleSuperuser.is_superuser = true ∧
    sampleAccount.user_id ≠ sampleSuperuser.id ∧
    getAccountEndpoint [sampleAccount] sampleSuperuser 42
      = .error (.http 404 "Account not found") := by
  decide

/-- C2 (amended): the ownership decision implemented by
`AccountService.get_account` is `identity.id == resource_owner_id` with no
superuser disjunct — the lookup succeeds iff a stored account carries the
requested id and is owned by the requester, and when no such account exists
(superuser or not) the read handler answers `404 "Account not found"`. -/
theorem c2_ownership_decision (db : List Account) (u : User)
    (account_id : Nat) :
    ((AccountService.get_account db account_id u.id).isSome ↔
      ∃ a ∈ db, a.id = account_id ∧ a.user_id = u.id) ∧
    ((∀ a ∈ db, a.id = account_id → a.user_id ≠ u.id) →
      getAccountEndpoint db u account_id
        = .error (.http 404 "Account not found")) := by
  constructor
  · rw [AccountService.get_account, List.find?_isSome]
    constructor
    · rintro ⟨a, ha, hp⟩
      simp only [Bool.and_eq_true, beq_iff_eq] at hp
      exact ⟨a, ha, hp⟩
    · rintro ⟨a, ha, h1, h2⟩
      exact ⟨a, ha, by simp [h1, h2]⟩
  · intro hown
    have hfind := AccountService.get_account_eq_none db account_id u.id hown
    simp [getAccountEndpoint, hfind]

/-- Witness for C2 (amended): instantiated at the superuser and the
foreign-owned account. -/
theorem c2_ownership_decision_witness :
    getAccountEndpoint [sampleAccount] sampleSuperuser 42
      = .error (.http 404 "Account not found") :=
  (c2_ownership_decision [sampleAccount] sampleSuperuser 42).2 (by decide)

/-- C9: the reset-expiry computation
`datetime.utcnow().replace(hour=datetime.utcnow().hour + 1)` is hour-of-day
field arithmetic; whenever the user exists and the call time has hour 23,
`set_password_reset_token` raises `ValueError` instead of storing
`now + 1 hour`, so the computed expiry does not equal one hour after the
current instant for every call time. -/
theorem c9_reset_expiry_hour_arithmetic (db : List User) (user_id : Nat)
    (reset_token : String) (now : Datetime)
    (hu : (UserService.get_user_by_id db user_id).isSome)
    (h23 : now.hour = 23) :
    UserService.set_password_reset_token db user_id reset_token now
      = .error (.valueError "hour must be in 0..23") := by
  unfold UserService.set_password_reset_token
  rcases hopt : UserService.get_user_by_id db user_id with _ | w
  · rw [hopt] at hu
    simp at hu
  · have hhour : ¬ (now.hour + 1 ≤ 23) := by omega
    simp [Datetime.replaceHour, hhour]

/-- A user who requested a password reset at 23:05 UTC. -/
def sampleLateUser : User :=
  { id := 3, email := "late@x.com", password_hash := "oldhash",
    is_active := true, is_superuser := false, created_at := sampleTime,
    updated_at := sampleTime, last_login := none,
    password_reset_token := none, password_reset_expires := none }

/-- The instant 23:05:00 UTC. -/
def sampleLateTime : Datetime :=
  { year := 2025, month := 6, day := 15, hour := 23, minute := 5,
    second := 0, microsecond := 0 }

/-- Witness for C9: at 23:05 UTC the expiry computation raises. -/
theorem c9_reset_expiry_hour_arithmetic_witness :
    UserService.set_password_reset_token [sampleLateUser] 3 "tok"
        sampleLateTime
      = .error (.valueError "hour must be in 0..23") :=
  c9_reset_expiry_hour_arithmetic [sampleLateUser] 3 "tok" sampleLateTime
    (by decide) (by decide)

/-- C10: login with an email matching no identity and login with a matching
email but a failing password check produce the very same outcome — an
`Unauthorized` error with the identical generic detail
`"Incorrect email or password"` — so the two causes are indistinguishable to
the caller. -/
theorem c10_login_uniform_failure (verify : String → String → Bool)
    (db : List User) (email1 password1 email2 password2 : String)
    (now : Datetime) (nowSecs : Nat)
    (h1 : ∀ u ∈ db, u.email ≠ email1)
    (h2 : ∃ u, db.find? (fun v => v.email == email2) = some u ∧
        verify password2 u.password_hash = false) :
    loginEndpoint verify db email1 password1 now nowSecs
      = .error (.http 401 "Incorrect email or password") ∧
    loginEndpoint verify db email2 password2 now nowSecs
      = loginEndpoint verify db email1 password1 now nowSecs := by
  have hf1 : db.find? (fun v => v.email == email1) = none := by
    rw [List.find?_eq_none]
    intro u hu
    simpa using h1 u hu
  obtain ⟨u, hu, hv⟩ := h2
  constructor
  · simp [loginEndpoint, hf1]
  · simp [loginEndpoint, hf1, hu, hv]

/-- A password check that accepts nothing, standing in for bcrypt
verification against a wrong password. -/
def sampleVerifyNone (password : String) (hashed : String) : Bool :=
  password == hashed && false

/-- Witness for C10: unknown email "ghost@x.com" and known email "u9@x.com"
with a wrong password fail identically. -/
theorem c10_login_uniform_failure_witness :
    loginEndpoint sampleVerifyNone [sampleUser9] "ghost@x.com" "pw1"
        sampleTime 1000
      = .error (.http 401 "Incorrect email or password") ∧
    loginEndpoint sampleVerifyNone [sampleUser9] "u9@x.com" "pw2"
        sampleTime 1000
      = loginEndpoint sampleVerifyNone [sampleUser9] "ghost@x.com" "pw1"
        sampleTime 1000 :=
  c10_login_uniform_failure sampleVerifyNone [sampleUser9] "ghost@x.com"
    "pw1" "u9@x.com" "pw2" sampleTime 1000 (by decide)
    ⟨sampleUser9, by decide, by decide⟩

/-- C3: reset tokens are single-use.  When the stored reset token `token` is
held by at most one user and a reset with it succeeds, producing state
`db'`, then (i) the matched user appears in `db'` with the new password hash
and with `password_reset_token` and `password_reset_expires` both cleared in
that same update, and (ii) a second reset presenting the same token against
`db'` fails with the generic `400 "Invalid reset token"` (the model returns
a new state only on success, so the failing replay commits nothing). -/
theorem c3_reset_token_single_use (hash : String → String) (db : List User)
    (token pw1 pw2 : String) (now1 now2 : Datetime) (db' : List User)
    (huniq : ∀ u ∈ db, ∀ v ∈ db, u.password_reset_token = some token →
        v.password_reset_token = some token → u = v)
    (hrun : resetPasswordEndpoint hash db token pw1 now1 = .ok db') :
    (∃ u0 ∈ db, u0.password_reset_token = some token ∧
      ∃ u1 ∈ db', u1.id = u0.id ∧ u1.password_hash = hash pw1 ∧
        u1.password_reset_token = none ∧ u1.password_reset_expires = none) ∧
    resetPasswordEndpoint hash db' token pw2 now2
      = .error (.http 400 "Invalid reset token") := by
  unfold resetPasswordEndpoint at hrun ⊢
  rcases hfind : db.find? (fun u => u.password_reset_token == some token)
    with _ | u0
  · rw [hfind] at hrun
    exact absurd hrun (by simp)
  · rw [hfind] at hrun
    have hu0 : u0 ∈ db := List.mem_of_find?_eq_some hfind
    have htok : u0.password_reset_token = some token := by
      have h := List.find?_some hfind
      simpa using h
    by_cases hv : (SecurityManager.validate_password_strength pw1).1
    · simp only [hv, Bool.not_true, Bool.false_eq_true, if_false] at hrun
      unfold UserService.reset_password UserService.get_user_by_id at hrun
      rcases hidf : db.find? (fun u => u.id == u0.id) with _ | w
      · rw [hidf] at hrun
        exact absurd hrun (by simp)
      · rw [hidf] at hrun
        simp only [Except.ok.injEq] at hrun
        subst hrun
        constructor
        · refine ⟨u0, hu0, htok, ?_⟩
          refine ⟨_, List.mem_map_of_mem _ hu0, ?_⟩
          simp
        · have hnone : (db.map (fun u =>
              if u.id == u0.id then
                { u with
                  password_hash := hash pw1
                  password_reset_token := none
                  password_reset_expires := none
                  updated_at := now1 }
              else u)).find?
              (fun u => u.password_reset_token == some token) = none := by
            rw [List.find?_eq_none]
            intro x hx
            rcases List.mem_map.mp hx with ⟨u, hu, rfl⟩
            by_cases hui : u.id == u0.id
            · simp [hui]
            · simp only [hui, Bool.false_eq_true, if_false]
              intro hcon
              have heq : u = u0 :=
                huniq u hu u0 hu0 (by simpa using hcon) htok
              subst heq
              simp at hui
          rw [hnone]
    · simp only [Bool.not_eq_true] at hv
      simp [hv] at hrun

/-- A user who holds the sample reset token "tk". -/
def sampleResetUser : User :=
  { id := 3, email := "r@x.com", password_hash := "oldhash",
    is_active := true, is_superuser := false, created_at := sampleTime,
    updated_at := sampleTime, last_login := none,
    password_reset_token := some "tk",
    password_reset_expires := some sampleTime }

/-- A stand-in for `SecurityManager.get_password_hash`. -/
def sampleHash (s : String) : String := String.append "bcrypt$" s

/-- `sampleResetUser` after a successful reset to "Abcdef1!" at
`sampleTime2`: hash replaced, token and expiry cleared. -/
def sampleResetUserCleared : User :=
  { sampleResetUser with
    password_hash := sampleHash "Abcdef1!"
    password_reset_token := none
    password_reset_expires := none
    updated_at := sampleTime2 }

/-- Witness for C3: one concrete reset succeeds and clears the token; the
replay of "tk" fails as an invalid token. -/
theorem c3_reset_token_single_use_witness :
    (∃ u0 ∈ [sampleResetUser], u0.password_reset_token = some "tk" ∧
      ∃ u1 ∈ [sampleResetUserCleared], u1.id = u0.id ∧
        u1.password_hash = sampleHash "Abcdef1!" ∧
        u1.password_reset_token = none ∧
        u1.password_reset_expires = none) ∧
    resetPasswordEndpoint sampleHash [sampleResetUserCleared] "tk" "Abcdef1!"
        sampleTime2
      = .error (.http 400 "Invalid reset token") :=
  c3_reset_token_single_use sampleHash [sampleResetUser] "tk" "Abcdef1!"
    "Abcdef1!" sampleTime2 sampleTime2 [sampleResetUserCleared]
    (by decide) (by decide)

/-- C4: the reset-password handler looks the user up solely by comparing the
presented token with the stored `password_reset_token` and never consults
`password_reset_expires`: whenever some stored user holds the presented
token and the new password satisfies the strength policy, the reset
succeeds — even under the explicit hypothesis that the call time `now` lies
strictly after every matching user's stored expiry. -/
theorem c4_reset_ignores_expiry (hash : String → String) (db : List User)
    (token pw : String) (now : Datetime)
    (hfound : ∃ u ∈ db, u.password_reset_token = some token)
    (hstrong : (SecurityManager.validate_password_strength pw).1 = true)
    (_hexpired : ∀ u ∈ db, u.password_reset_token = some token →
        ∀ e, u.password_reset_expires = some e → Datetime.lt e now = true) :
    ∃ db', resetPasswordEndpoint hash db token pw now = .ok db' := by
  unfold resetPasswordEndpoint
  have hsome : (db.find?
      (fun u => u.password_reset_token == some token)).isSome := by
    rw [List.find?_isSome]
    obtain ⟨u, hu, ht⟩ := hfound
    exact ⟨u, hu, by simp [ht]⟩
  rcases hfind : db.find? (fun u => u.password_reset_token == some token)
    with _ | u0
  · rw [hfind] at hsome
    simp at hsome
  · simp only [hfind, hstrong, Bool.not_true, Bool.false_eq_true, if_false]
    unfold UserService.reset_password UserService.get_user_by_id
    have hu0 : u0 ∈ db := List.mem_of_find?_eq_some hfind
    have hidsome : (db.find? (fun u => u.id == u0.id)).isSome := by
      rw [List.find?_isSome]
      exact ⟨u0, hu0, by simp⟩
    rcases hidf : db.find? (fun u => u.id == u0.id) with _ | w
    · rw [hidf] at hidsome
      simp at hidsome
    · simp only [hidf]
      exact ⟨_, rfl⟩

/-- Witness for C4: `sampleResetUser`'s expiry (12:00) lies before the call
time 12:30, yet the reset with the matching token succeeds. -/
theorem c4_reset_ignores_expiry_witness :
    ∃ db', resetPasswordEndpoint sampleHash [sampleResetUser] "tk"
        "Abcdef1!" sampleTime2 = .ok db' :=
  c4_reset_ignores_expiry sampleHash [sampleResetUser] "tk" "Abcdef1!"
    sampleTime2 ⟨sampleResetUser, by decide, by decide⟩ (by decide)
    (by decide)
